import Mathlib

/-!
Verification of the conversational onboarding agent in
`src/api/agentic_fastapi_app.py`.

The development is a shallow embedding of the workflow code:

* Python dictionaries of profile fields become association lists
  (`ProfileData`); a key whose Python value is `None` behaves exactly like
  an absent key in every check the workflow performs, so such keys are
  represented as absent.
* The SQLite table `user_profiles` becomes an association list from
  `user_id` to `Row`, a record with one `Option String` per column
  (`created_at` and `updated_at` carry wall-clock timestamps and are read
  by no workflow logic, so they are not modelled).
* Each external capability invocation (LLM chains, the web-search tool) is
  an input to the turn, bundled in `Oracles`; the code's behaviour is a
  function of those outcomes.  A raised Python exception is an `Except.error`.
* A LangGraph node returns a dictionary of channel updates; channels have
  no reducers in this graph, so an update overwrites the channel
  (`Update` / `applyUpdate`).  A node that raises aborts `invoke`, which
  the `/chat` endpoint's catch-all converts into a 500 response.
-/

/-- Role-tagged utterances: `HumanMessage` / `AIMessage`. -/
inductive Msg where
  | human (content : String)
  | ai (content : String)
deriving DecidableEq, Repr

/-- A Python dict of string profile fields, in insertion order. -/
abbrev ProfileData := List (String × String)

/-- Dictionary read: first binding of the key, if any. -/
def lookupPD : ProfileData → String → Option String
  | [], _ => none
  | (k', v) :: rest, k => if k' = k then some v else lookupPD rest k

/-- Dictionary write: replace the existing binding in place, else append
(Python dict assignment semantics). -/
def setPD : ProfileData → String → String → ProfileData
  | [], k, v => [(k, v)]
  | (k', v') :: rest, k, v =>
    if k' = k then (k, v) :: rest else (k', v') :: setPD rest k v

/-- Python `dict.update`: apply each binding of `upd` in order. -/
def updatePD (pd : ProfileData) (upd : ProfileData) : ProfileData :=
  upd.foldl (fun acc e => setPD acc e.1 e.2) pd

/-- One row of the `user_profiles` table: the columns of the CREATE TABLE
statement (timestamps omitted, see module comment). -/
structure Row where
  name : Option String := none
  state : Option String := none
  age : Option String := none
  gender : Option String := none
  occupation : Option String := none
  income_category : Option String := none
  family_size : Option String := none
  has_disability : Option String := none
  craft_type : Option String := none
  materials : Option String := none
  years_experience : Option String := none
  sales_channels : Option String := none
  price_range : Option String := none
  languages : Option String := none
  brand_style : Option String := none
  backstory : Option String := none
deriving DecidableEq, Repr

/-- The `user_profiles` table keyed by `user_id`. -/
abbrev Store := List (String × Row)

def lookupStore : Store → String → Option Row
  | [], _ => none
  | (k', r) :: rest, k => if k' = k then some r else lookupStore rest k

def setStore : Store → String → Row → Store
  | [], k, r => [(k, r)]
  | (k', r') :: rest, k, r =>
    if k' = k then (k, r) :: rest else (k', r') :: setStore rest k r

/-- The column list written by both branches of `save_user_profile`
(INSERT and UPDATE name exactly these fifteen columns; neither writes
`backstory`). -/
def profileColumns : List String :=
  ["name", "state", "age", "gender", "occupation", "income_category",
   "family_size", "has_disability", "craft_type", "materials",
   "years_experience", "sales_channels", "price_range", "languages",
   "brand_style"]

/-- Build the row written by `save_user_profile` from `profile_data.get(col)`
for each written column, with the given `backstory` column value
(`None` on INSERT, the previous value on UPDATE). -/
def rowFrom (pd : ProfileData) (backstory : Option String) : Row :=
  { name := lookupPD pd "name"
    state := lookupPD pd "state"
    age := lookupPD pd "age"
    gender := lookupPD pd "gender"
    occupation := lookupPD pd "occupation"
    income_category := lookupPD pd "income_category"
    family_size := lookupPD pd "family_size"
    has_disability := lookupPD pd "has_disability"
    craft_type := lookupPD pd "craft_type"
    materials := lookupPD pd "materials"
    years_experience := lookupPD pd "years_experience"
    sales_channels := lookupPD pd "sales_channels"
    price_range := lookupPD pd "price_range"
    languages := lookupPD pd "languages"
    brand_style := lookupPD pd "brand_style"
    backstory := backstory }

/-- `SQLiteStore.save_user_profile`: UPDATE all fifteen profile columns if a
row exists (keeping `backstory`), else INSERT a fresh row. -/
def save_user_profile (store : Store) (uid : String) (pd : ProfileData) : Store :=
  match lookupStore store uid with
  | some r => setStore store uid (rowFrom pd r.backstory)
  | none => setStore store uid (rowFrom pd none)

/-- `SQLiteStore.save_backstory`: SQL UPDATE of the `backstory` column; with
no matching row the statement changes nothing. -/
def save_backstory (store : Store) (uid : String) (text : String) : Store :=
  match lookupStore store uid with
  | some r => setStore store uid { r with backstory := some text }
  | none => store

/-- `SQLiteStore.delete_user_profile` on the `user_profiles` table. -/
def delete_user_profile (store : Store) (uid : String) : Store :=
  store.filter (fun e => e.1 ≠ uid)

/-- The `SELECT *` row as the Python dict returned by
`SQLiteStore.get_user_profile`: column order of the CREATE TABLE statement,
NULL columns behaving as absent keys (module comment). -/
def rowEntries (uid : String) (r : Row) : List (String × Option String) :=
  [("user_id", some uid), ("name", r.name), ("state", r.state),
   ("age", r.age), ("gender", r.gender), ("occupation", r.occupation),
   ("income_category", r.income_category), ("family_size", r.family_size),
   ("has_disability", r.has_disability), ("craft_type", r.craft_type),
   ("materials", r.materials), ("years_experience", r.years_experience),
   ("sales_channels", r.sales_channels), ("price_range", r.price_range),
   ("languages", r.languages), ("brand_style", r.brand_style),
   ("backstory", r.backstory)]

/-- Keep the populated columns of a row listing. -/
def entriesToDict : List (String × Option String) → ProfileData
  | [] => []
  | (k, some v) :: rest => (k, v) :: entriesToDict rest
  | (_, none) :: rest => entriesToDict rest

def rowToDict (uid : String) (r : Row) : ProfileData :=
  entriesToDict (rowEntries uid r)

/-- `SQLiteStore.get_user_profile`: the row as a dict, or `None`. -/
def get_user_profile (store : Store) (uid : String) : Option ProfileData :=
  (lookupStore store uid).map (rowToDict uid)

-- Reading a field out of the dict form of a row

/-- Reference lookup over a row listing that still carries the NULL columns. -/
def lookupEntries : List (String × Option String) → String → Option String
  | [], _ => none
  | (k', v) :: rest, k => if k' = k then v else lookupEntries rest k

-- Profile completeness (onboarding_step_node lines 209-219 and 338-339)

/-- The fixed, ordered required-field list of `onboarding_step_node`. -/
def requiredFields : List String :=
  ["name", "state", "craft_type", "materials", "years_experience",
   "sales_channels", "price_range", "languages", "brand_style"]

/-- Python truthiness of an optional field value: present and non-empty. -/
def nonEmptyOpt : Option String → Bool
  | some v => v != ""
  | none => false

/-- `field not in current_profile or not current_profile[field]`. -/
def fieldMissing (pd : ProfileData) (f : String) : Bool :=
  !nonEmptyOpt (lookupPD pd f)

/-- `missing_fields` (line 339): required fields absent or empty, in order. -/
def missingFields (pd : ProfileData) : List String :=
  requiredFields.filter (fun f => fieldMissing pd f)

/-- `missing_fields_for_prompt` (line 299): required fields whose key is
absent from the dict (values, even empty ones, count as present). -/
def missingForPrompt (pd : ProfileData) : List String :=
  requiredFields.filter (fun f => (lookupPD pd f).isNone)

/-- A stored row is complete: each of the nine required fields maps to a
populated column. -/
def rowComplete (r : Row) : Bool :=
  nonEmptyOpt r.name && nonEmptyOpt r.state && nonEmptyOpt r.craft_type &&
  nonEmptyOpt r.materials && nonEmptyOpt r.years_experience &&
  nonEmptyOpt r.sales_channels && nonEmptyOpt r.price_range &&
  nonEmptyOpt r.languages && nonEmptyOpt r.brand_style

/-- A persisted complete profile exists for `uid`. -/
def completeProfileExists (store : Store) (uid : String) : Bool :=
  match lookupStore store uid with
  | some r => rowComplete r
  | none => false

/-- Store invariant: every persisted row is complete.  It holds for the
empty store and, as proved below, is preserved by every write the
application performs. -/
def RowsComplete (store : Store) : Prop :=
  ∀ uid r, lookupStore store uid = some r → rowComplete r = true

/-- The `backstory` column stored for `uid`, if any. -/
def backstoryOf (store : Store) (uid : String) : Option String :=
  (lookupStore store uid).bind (fun r => r.backstory)

-- String utilities used by the nodes

/-- Exact list-prefix test on characters. -/
def charsBeginWith : List Char → List Char → Bool
  | [], _ => true
  | _ :: _, [] => false
  | a :: as', b :: bs' => a == b && charsBeginWith as' bs'

/-- Substring occurrence, Python `pat in s`. -/
def charsOccur (pat : List Char) : List Char → Bool
  | [] => charsBeginWith pat []
  | c :: cs => charsBeginWith pat (c :: cs) || charsOccur pat cs

def occursIn (pat s : String) : Bool := charsOccur pat.data s.data

/-- Python `str.lower` over the character list (structural version of
`String.toLower`). -/
def strLower (s : String) : String := String.mk (s.data.map Char.toLower)

/-- Python `str.strip` over the character list (structural version of
`String.trim`). -/
def strTrim (s : String) : String :=
  String.mk
    (((s.data.dropWhile Char.isWhitespace).reverse.dropWhile
        Char.isWhitespace).reverse)

/-- Case-insensitive list-prefix test (`re.IGNORECASE`). -/
def charsBeginWithCI : List Char → List Char → Bool
  | [], _ => true
  | _ :: _, [] => false
  | a :: as', b :: bs' => a.toLower == b.toLower && charsBeginWithCI as' bs'

/-- Drop through the text up to and including the first case-insensitive
occurrence of `pat`, returning the remainder; `none` when `pat` never
occurs. -/
def dropAfterMatchCI (pat : List Char) : List Char → Option (List Char)
  | [] => if charsBeginWithCI pat [] then some [] else none
  | c :: cs =>
    if charsBeginWithCI pat (c :: cs) then some ((c :: cs).drop pat.length)
    else dropAfterMatchCI pat cs

/-- First maximal run of decimal digits, `re.findall(r"[0-9]+", s)[0]`. -/
def digitRun : List Char → Option String
  | [] => none
  | c :: rest =>
    if c.isDigit then some (String.mk (c :: rest.takeWhile Char.isDigit))
    else digitRun rest

def firstNumberToken (s : String) : Option String := digitRun s.data

-- Workflow state (AgentState TypedDict) and channel updates

/-- The LangGraph `AgentState`.  At runtime the dict may lack keys, which
`state.get` reads as absent; absence is an `Option`/empty default here.
`onboarding_step`, `timestamp` and `session_id` are written by no node of
the graph and are omitted. -/
structure AgentState where
  messages : List Msg := []
  user_id : String := ""
  is_onboarding : Option Bool := none
  user_profile_data : Option ProfileData := none
  intent : Option String := none
  tool_output : Option String := none
  final_response_text : Option String := none
  backstory : Option String := none
deriving DecidableEq, Repr

/-- A node's returned dict of channel updates.  No channel of this graph
has a reducer, so a returned key overwrites the channel and an omitted key
leaves it unchanged. -/
structure Update where
  messages : Option (List Msg) := none
  user_id : Option String := none
  is_onboarding : Option Bool := none
  user_profile_data : Option ProfileData := none
  intent : Option String := none
  tool_output : Option String := none
  final_response_text : Option String := none
  backstory : Option (Option String) := none
deriving DecidableEq, Repr

def applyUpdate (s : AgentState) (u : Update) : AgentState :=
  { messages := u.messages.getD s.messages
    user_id := u.user_id.getD s.user_id
    is_onboarding := match u.is_onboarding with
      | some b => some b
      | none => s.is_onboarding
    user_profile_data := match u.user_profile_data with
      | some pd => some pd
      | none => s.user_profile_data
    intent := match u.intent with
      | some i => some i
      | none => s.intent
    tool_output := match u.tool_output with
      | some t => some t
      | none => s.tool_output
    final_response_text := match u.final_response_text with
      | some t => some t
      | none => s.final_response_text
    backstory := match u.backstory with
      | some b => b
      | none => s.backstory }

/-- Outcome of the extraction chain plus the JSON scan of its output
(lines 306-315): a parsed brace-delimited object, a response with no
parseable object, or a raised exception. -/
inductive ExtractOutcome where
  | json (fields : ProfileData)
  | noJson
  | raised
deriving DecidableEq, Repr

/-- The turn's external-capability outcomes: each LLM chain invocation and
the web-search call, in the role the nodes use them.  `Except.error e`
models the Python call raising an exception rendered as `e`. -/
structure Oracles where
  extract : ExtractOutcome
  backstoryGen : Except String String
  classify : Except String String
  search : Except String (List String)
  summarize : Except String String
  generalAnswer : Except String String
  normalize : Except String String
deriving Repr

-- Message helpers

def Msg.content : Msg → String
  | .human s => s
  | .ai s => s

def isHuman : Msg → Bool
  | .human _ => true
  | .ai _ => false

def isAi : Msg → Bool
  | .human _ => false
  | .ai _ => true

/-- Most recent `HumanMessage` content, `""` when there is none
(onboarding_step_node lines 222-227). -/
def lastHumanContent (ms : List Msg) : String :=
  match ms.reverse.find? isHuman with
  | some m => m.content
  | none => ""

/-- Last `AIMessage` content, `""` when there is none (chat endpoint
lines 1462-1468). -/
def lastAiContent (ms : List Msg) : String :=
  match ms.reverse.find? isAi with
  | some m => m.content
  | none => ""

-- check_user_profile_node (lines 149-197)

def welcomeMessage : String :=
  "Welcome! I\x27m your artisan brand assistant. I\x27ll help you set up your craft profile, craft a compelling backstory, and support your content. Let\x27s start simple — what should I call you or your brand?"

/-- `check_user_profile_node`: re-derives the onboarding flag from the
store; on the error path (`not user_id`) the returned dict names no state
channel, which aborts the graph run. -/
def check_user_profile_node (store : Store) (st : AgentState) :
    Except String Update :=
  let uid := st.user_id
  if uid = "" then .error "User ID not found in state"
  else
    match get_user_profile store uid with
    | some storedProfile =>
        .ok { user_id := some uid, is_onboarding := some false,
              user_profile_data := some storedProfile,
              messages := some st.messages }
    | none =>
        let profileSoFar := st.user_profile_data.getD []
        let isNewUser :=
          (st.messages.filter isHuman).length ≤ 1 && profileSoFar.isEmpty
        if isNewUser then
          .ok { user_id := some uid, is_onboarding := some true,
                user_profile_data := some profileSoFar,
                messages := some (st.messages ++ [.ai welcomeMessage]),
                final_response_text := some welcomeMessage }
        else
          .ok { user_id := some uid, is_onboarding := some true,
                user_profile_data := some profileSoFar,
                messages := some st.messages }

-- onboarding_step_node (lines 199-435)

/-- The static field-to-question lookup (lines 416-426). -/
def fieldPrompts : ProfileData :=
  [("name", "What should I call your brand or what\x27s your name?"),
   ("state", "Which state/region in India are you based in?"),
   ("craft_type", "What craft do you practice? (e.g., pottery, weaving, woodwork)"),
   ("materials", "What materials do you mostly use? (e.g., clay, cotton, bamboo)"),
   ("years_experience", "How many years have you been practicing this craft?"),
   ("sales_channels", "Where do you usually sell? Online, offline, or both?"),
   ("price_range", "What\x27s your typical price range? (e.g., Rs 200-500, premium)"),
   ("languages", "Which languages do you speak or want content in?"),
   ("brand_style", "How would you describe your brand style or voice? (e.g., earthy, premium)")]

/-- `field_prompts.get(next_field, f"Please provide your {next_field}")`. -/
def questionFor (f : String) : String :=
  (lookupPD fieldPrompts f).getD ("Please provide your " ++ f)

/-- The numeric-token fallback: set `years_experience` to the first digit
run of the utterance, if any (lines 322-325 and 333-336). -/
def numericFallback (pd : ProfileData) (userMessage : String) : ProfileData :=
  match firstNumberToken userMessage with
  | some n => setPD pd "years_experience" n
  | none => pd

/-- Lines 304-336: merge the extraction outcome into the profile.  With no
human message no extraction is attempted.  A parsed JSON object is merged
with `dict.update`.  With no parseable object, and identically on a raised
exception, the numeric fallback fires only when the first
`missing_fields_for_prompt` entry is `years_experience`. -/
def applyExtraction (pd : ProfileData) (userMessage : String)
    (o : ExtractOutcome) : ProfileData :=
  if userMessage = "" then pd
  else
    match o with
    | .json fields => updatePD pd fields
    | .noJson =>
        if (missingForPrompt pd).head? = some "years_experience" then
          numericFallback pd userMessage
        else pd
    | .raised =>
        if (missingForPrompt pd).head? = some "years_experience" then
          numericFallback pd userMessage
        else pd

/-- Capture of `.+?` after `Backstory:\s*`, stopping before the first
`\n\s*Tagline:` (lazy group, terminator excluded from the capture). -/
def untilNlTagline : List Char → List Char
  | [] => []
  | c :: cs =>
    if c = '\n' &&
        charsBeginWithCI "tagline:".data (cs.dropWhile Char.isWhitespace) then []
    else c :: untilNlTagline cs

/-- Lines 391-397: split the raw (already stripped) backstory text into a
`Backstory:` section and an optional `Tagline:` section with the two
case-insensitive regexes, then store the concatenation. -/
def composeBackstory (rawStripped : String) : String :=
  let cs := rawStripped.data
  let bsSection :=
    match dropAfterMatchCI "backstory:".data cs with
    | some rest =>
        match rest.dropWhile Char.isWhitespace with
        | [] =>
            if rest.isEmpty then rawStripped
            else ""
        | b :: bs' => strTrim (String.mk (b :: untilNlTagline bs'))
    | none => rawStripped
  let tlSection :=
    match dropAfterMatchCI "tagline:".data cs with
    | some rest => strTrim (String.mk (rest.dropWhile Char.isWhitespace))
    | none => ""
  bsSection ++ (if tlSection = "" then "" else "\n\nTagline: " ++ tlSection)

def backstoryDoneText : String :=
  " I\x27ve also crafted your brand backstory. You can fetch it anytime."

/-- `onboarding_step_node`: extraction, completion detection with profile
persistence and guarded backstory generation, else the next fixed
question.  Returns the channel updates and the resulting store. -/
def onboarding_step_node (store : Store) (st : AgentState) (o : Oracles) :
    Update × Store :=
  if !(st.is_onboarding.getD false) then
    ({ is_onboarding := some false }, store)
  else
    let uid := st.user_id
    let messages := st.messages
    let userMessage := lastHumanContent messages
    let currentProfile :=
      applyExtraction (st.user_profile_data.getD []) userMessage o.extract
    match missingFields currentProfile with
    | [] =>
      let store1 := save_user_profile store uid currentProfile
      let name := (lookupPD currentProfile "name").getD "there"
      let finalBase := "Great! " ++ name ++ ", your artisan profile is set."
      let existingBackstory :=
        (lookupPD ((get_user_profile store1 uid).getD []) "backstory").getD ""
      if existingBackstory = "" then
        match o.backstoryGen with
        | .ok raw =>
          let backstoryText := composeBackstory (strTrim raw)
          let store2 := save_backstory store1 uid backstoryText
          let finalText := finalBase ++ backstoryDoneText
          ({ is_onboarding := some false,
             user_profile_data := some currentProfile,
             messages := some (messages ++ [.ai finalText]),
             final_response_text := some finalText,
             backstory := some (some backstoryText) }, store2)
        | .error _ =>
          ({ is_onboarding := some false,
             user_profile_data := some currentProfile,
             messages := some (messages ++ [.ai finalBase]),
             final_response_text := some finalBase,
             backstory := some none }, store1)
      else
        ({ is_onboarding := some false,
           user_profile_data := some currentProfile,
           messages := some (messages ++ [.ai finalBase]),
           final_response_text := some finalBase,
           backstory := some none }, store1)
    | nextField :: _ =>
      let nextQuestion := questionFor nextField
      ({ is_onboarding := some true,
         user_profile_data := some currentProfile,
         messages := some (messages ++ [.ai nextQuestion]),
         final_response_text := some nextQuestion }, store)

-- supervisor_agent_node (lines 437-473)

/-- Intent normalization (lines 462-471): lowercase the stripped classifier
output and look for the welfare substrings. -/
def intentOf (resp : String) : String :=
  let intent := strLower (strTrim resp)
  if occursIn "welfare" intent || occursIn "scheme" intent ||
      occursIn "benefit" intent then "welfare_search"
  else "general_query"

/-- `supervisor_agent_node`: the profile fetch only feeds the prompt; the
query read (`state["messages"][-1]`) raises on an empty history, and the
classification call itself is not wrapped in a handler, so its failure
propagates. -/
def supervisor_agent_node (st : AgentState) (o : Oracles) :
    Except String Update :=
  match st.messages.getLast? with
  | none => .error "IndexError: list index out of range"
  | some _ =>
    match o.classify with
    | .error e => .error e
    | .ok resp => .ok { intent := some (intentOf resp) }

-- welfare_search_node (lines 475-517)

def welfareDegradedText (e : String) : String :=
  "Unable to search welfare schemes: " ++ e

/-- `welfare_search_node`: the query read is outside the handler and can
raise; the search call and the summarization call are inside `try` and any
exception becomes the degraded `tool_output` text. -/
def welfare_search_node (st : AgentState) (o : Oracles) :
    Except String Update :=
  match st.messages.getLast? with
  | none => .error "IndexError: list index out of range"
  | some _ =>
    let out :=
      match o.search with
      | .error e => welfareDegradedText e
      | .ok _results =>
        match o.summarize with
        | .error e => welfareDegradedText e
        | .ok t => t
    .ok { tool_output := some out }

-- general_query_node (lines 519-546)

/-- `general_query_node`: only the profile fetch is wrapped; the answer
chain invocation is not, so its failure propagates. -/
def general_query_node (st : AgentState) (o : Oracles) :
    Except String Update :=
  match st.messages.getLast? with
  | none => .error "IndexError: list index out of range"
  | some _ =>
    match o.generalAnswer with
    | .error e => .error e
    | .ok t => .ok { tool_output := some t }

-- final_response_node (lines 548-573)

/-- `final_response_node`: pass form-like output through unchanged, else
rewrite through the (unwrapped) normalization chain.  The returned
`messages` value replaces the channel with the single final message. -/
def final_response_node (st : AgentState) (o : Oracles) :
    Except String Update :=
  let toolOutput := st.tool_output.getD ""
  if occursIn "form" (strLower toolOutput) then
    .ok { messages := some [.ai toolOutput],
          final_response_text := some toolOutput }
  else
    match o.normalize with
    | .error e => .error e
    | .ok t => .ok { messages := some [.ai t],
                     final_response_text := some t }

-- Workflow wiring (build_agentic_workflow, lines 579-630)

def route_after_checking_profile (st : AgentState) : String :=
  if st.is_onboarding.getD false then "onboarding_step" else "supervisor"

def route_after_supervisor (st : AgentState) : String :=
  st.intent.getD "general_query"

/-- One `workflow.invoke`: entry at `check_user_profile`, conditional edge
to `onboarding_step` (then END) or to `supervisor`, then to one of the two
handlers and `structure_final_response`.  A node that raises aborts the
run with that error. -/
def runTurn (store : Store) (st : AgentState) (o : Oracles) :
    Except String (AgentState × Store) :=
  match check_user_profile_node store st with
  | .error e => .error e
  | .ok u1 =>
    let s1 := applyUpdate st u1
    if route_after_checking_profile s1 = "onboarding_step" then
      let (u2, store2) := onboarding_step_node store s1 o
      .ok (applyUpdate s1 u2, store2)
    else
      match supervisor_agent_node s1 o with
      | .error e => .error e
      | .ok u2 =>
        let s2 := applyUpdate s1 u2
        let handled :=
          if route_after_supervisor s2 = "welfare_search" then
            welfare_search_node s2 o
          else
            general_query_node s2 o
        match handled with
        | .error e => .error e
        | .ok u3 =>
          let s3 := applyUpdate s2 u3
          match final_response_node s3 o with
          | .error e => .error e
          | .ok u4 => .ok (applyUpdate s3 u4, store)

-- /chat endpoint (lines 1434-1492)

/-- The response model of `/chat` restricted to the fields the workflow
sets (`onboarding_step` is never written by any node and stays `None`). -/
structure ChatResponseM where
  response : String
  is_onboarding : Bool
  user_profile : ProfileData
  backstory : Option String
deriving DecidableEq, Repr

/-- `chat_endpoint`: continue the checkpointed conversation (append the
new human message) or start a fresh state, invoke the workflow with no
prior identity validation, and shape the response.  A raised exception is
caught by the catch-all and surfaces as the 500 detail text. -/
def chat_endpoint (store : Store) (checkpoint : Option AgentState)
    (message uid : String) (o : Oracles) :
    Except String (ChatResponseM × Store) :=
  let inputState : AgentState :=
    match checkpoint with
    | some cp => { cp with messages := cp.messages ++ [.human message] }
    | none => { messages := [.human message], user_id := uid }
  match runTurn store inputState o with
  | .error e => .error ("Internal server error: " ++ e)
  | .ok (rs, store2) =>
    let finalResponse := lastAiContent rs.messages
    let profile0 := rs.user_profile_data.getD []
    let userProfile :=
      if profile0.isEmpty then (get_user_profile store2 uid).getD []
      else profile0
    .ok ({ response :=
             if finalResponse = "" then
               "I\x27m sorry, I couldn\x27t process that request."
             else finalResponse,
           is_onboarding := rs.is_onboarding.getD false,
           user_profile := userProfile,
           backstory := rs.backstory }, store2)

-- Concrete fixtures shared by the claim witnesses

/-- All-successful external outcomes with an extractor that found nothing
(the empty JSON object). -/
def oracleOk : Oracles :=
  { extract := .json [], backstoryGen := .ok "", classify := .ok "",
    search := .ok [], summarize := .ok "", generalAnswer := .ok "",
    normalize := .ok "" }

/-- A profile dict with all nine required fields populated. -/
def completeProfile : ProfileData :=
  [("name", "Asha"), ("state", "Rajasthan"), ("craft_type", "pottery"),
   ("materials", "clay"), ("years_experience", "5"),
   ("sales_channels", "online"), ("price_range", "Rs 200-500"),
   ("languages", "Hindi"), ("brand_style", "earthy")]

/-- A store holding the complete profile row for user `u`. -/
def storeComplete : Store := save_user_profile [] "u" completeProfile

/-- `storeComplete` with a stored backstory for user `u`. -/
def storeWithBackstory : Store := save_backstory storeComplete "u" "tale"

-- Claim C1

/-- The state's `is_onboarding` value once `check_user_profile_node` has
run (the node always writes the channel on its successful paths). -/
def onboardingFlagAfterCheck (store : Store) (st : AgentState) :
    Option Bool :=
  match check_user_profile_node store st with
  | .ok u => (applyUpdate st u).is_onboarding
  | .error _ => none

-- Further fixtures

/-- A completion-eligible onboarding turn state: the partial profile is
already complete and the extractor returns the empty object. -/
def stCompletion : AgentState :=
  { messages := [.human "done"], user_id := "u", is_onboarding := some true,
    user_profile_data := some completeProfile }

/-- A first onboarding turn with an empty partial profile. -/
def stFresh : AgentState :=
  { messages := [.human "hello"], user_id := "u", is_onboarding := some true,
    user_profile_data := some [] }

/-- A mid-onboarding state whose profile has only `name`. -/
def stMidway : AgentState :=
  { messages := [.human "hello 7"], user_id := "u",
    is_onboarding := some true, user_profile_data := some [("name", "A")] }

/-- A mid-onboarding state whose profile carries an empty-string `state`
value (reachable when a prior extraction wrote an empty string) and lacks
only `years_experience` as a dict key. -/
def stEmptyState : AgentState :=
  { messages := [.human "hello 7"], user_id := "u",
    is_onboarding := some true,
    user_profile_data := some
      [("name", "A"), ("state", ""), ("craft_type", "c"),
       ("materials", "m"), ("sales_channels", "s"), ("price_range", "p"),
       ("languages", "l"), ("brand_style", "b")] }

def oracleNoJson : Oracles := { oracleOk with extract := .noJson }

def oracleGenFails : Oracles :=
  { oracleOk with backstoryGen := .error "model down" }

def turnSucceeds : Except String (AgentState × Store) → Bool
  | .ok _ => true
  | .error _ => false

def turnToolOutput : Except String (AgentState × Store) → Option String
  | .ok (rs, _) => rs.tool_output
  | .error _ => none

def turnFinalResponse : Except String (AgentState × Store) → Option String
  | .ok (rs, _) => rs.final_response_text
  | .error _ => none

def oracleClassifyFails : Oracles :=
  { oracleOk with
    classify := .ok "general_query"
    generalAnswer := .error "LLM unavailable" }

/-- A post-onboarding turn state for user `u`. -/
def stPost : AgentState :=
  { messages := [.human "what is PM Kisan scheme"], user_id := "u" }

def oracleSearchFails : Oracles :=
  { oracleOk with
    classify := .ok "welfare_search"
    search := .error "search down"
    normalize := .ok "a short answer" }

-- Supporting lemmas and claim theorems

-- Basic store lemmas

theorem lookupStore_setStore_same (s : Store) (k : String) (r : Row) :
    lookupStore (setStore s k r) k = some r := by
  induction s with
  | nil => simp [setStore, lookupStore]
  | cons e rest ih =>
    by_cases h : e.1 = k
    · simp [setStore, lookupStore, h]
    · simp [setStore, lookupStore, h, ih]

theorem lookupStore_setStore_ne (s : Store) (k k' : String) (r : Row)
    (h : k ≠ k') : lookupStore (setStore s k r) k' = lookupStore s k' := by
  induction s with
  | nil => simp [setStore, lookupStore, h]
  | cons e rest ih =>
    by_cases he : e.1 = k
    · simp [setStore, lookupStore, he, h]
    · simp only [setStore, lookupStore, if_neg he]
      by_cases he' : e.1 = k'
      · simp [lookupStore, he']
      · simp [lookupStore, he', ih]

theorem lookupPD_entriesToDict_of_not_mem (es : List (String × Option String))
    (f : String) (h : f ∉ es.map Prod.fst) :
    lookupPD (entriesToDict es) f = none := by
  induction es with
  | nil => rfl
  | cons e rest ih =>
    obtain ⟨k, v⟩ := e
    simp only [List.map_cons, List.mem_cons] at h
    push_neg at h
    cases v with
    | none => simpa [entriesToDict] using ih h.2
    | some v =>
      simp only [entriesToDict, lookupPD]
      rw [if_neg (fun hk => h.1 hk.symm)]
      exact ih h.2

theorem lookupPD_entriesToDict (es : List (String × Option String)) (f : String)
    (h : (es.map Prod.fst).count f ≤ 1) :
    lookupPD (entriesToDict es) f = lookupEntries es f := by
  induction es with
  | nil => rfl
  | cons e rest ih =>
    obtain ⟨k, v⟩ := e
    by_cases hk : k = f
    · subst hk
      simp only [List.map_cons, List.count_cons_self] at h
      have hrest : k ∉ rest.map Prod.fst := by
        intro hmem
        have := List.count_pos_iff.mpr hmem
        omega
      cases v with
      | none =>
        simp only [entriesToDict, lookupEntries, if_pos rfl]
        exact lookupPD_entriesToDict_of_not_mem rest k hrest
      | some v => simp [entriesToDict, lookupPD, lookupEntries]
    · have h' : (rest.map Prod.fst).count f ≤ 1 := by
        simp only [List.map_cons] at h
        rw [List.count_cons] at h
        omega
      cases v with
      | none => simpa [entriesToDict, lookupEntries, hk] using ih h'
      | some v => simpa [entriesToDict, lookupPD, lookupEntries, hk] using ih h'

theorem map_fst_rowEntries (uid : String) (r : Row) :
    (rowEntries uid r).map Prod.fst =
      ["user_id", "name", "state", "age", "gender", "occupation",
       "income_category", "family_size", "has_disability", "craft_type",
       "materials", "years_experience", "sales_channels", "price_range",
       "languages", "brand_style", "backstory"] := rfl

/-- Looking up any of the fifteen written profile columns in the dict of a
row written by `save_user_profile` gives exactly the saved value. -/
theorem lookupPD_rowToDict_col (uid : String) (pd : ProfileData)
    (bs : Option String) (f : String) (hf : f ∈ profileColumns) :
    lookupPD (rowToDict uid (rowFrom pd bs)) f = lookupPD pd f := by
  have hcol := hf
  simp only [profileColumns, List.mem_cons, List.not_mem_nil, or_false] at hcol
  rcases hcol with rfl | rfl | rfl | rfl | rfl | rfl | rfl | rfl | rfl | rfl |
    rfl | rfl | rfl | rfl | rfl <;>
    · rw [rowToDict, lookupPD_entriesToDict]
      · rfl
      · rw [map_fst_rowEntries]; decide

/-- Looking up `backstory` in the dict of any row gives the `backstory`
column. -/
theorem lookupPD_rowToDict_backstory (uid : String) (r : Row) :
    lookupPD (rowToDict uid r) "backstory" = r.backstory := by
  rw [rowToDict, lookupPD_entriesToDict]
  · rfl
  · rw [map_fst_rowEntries]; decide

theorem rowsComplete_nil : RowsComplete [] := by
  intro uid r h
  simp [lookupStore] at h

theorem fieldMissing_false_iff (pd : ProfileData) (f : String) :
    fieldMissing pd f = false ↔ ∃ v, lookupPD pd f = some v ∧ v ≠ "" := by
  unfold fieldMissing nonEmptyOpt
  cases h : lookupPD pd f <;> simp [h, bne]

/-- A profile dict with no missing required field is saved as a complete
row. -/
theorem rowComplete_rowFrom (pd : ProfileData) (bs : Option String)
    (h : missingFields pd = []) : rowComplete (rowFrom pd bs) = true := by
  have hall : ∀ f ∈ requiredFields, ¬(fieldMissing pd f = true) := by
    rw [← List.filter_eq_nil_iff]
    exact h
  have hne : ∀ f ∈ requiredFields, nonEmptyOpt (lookupPD pd f) = true := by
    intro f hf
    have := hall f hf
    unfold fieldMissing at this
    simpa using this
  simp only [rowComplete, rowFrom, Bool.and_eq_true]
  refine ⟨⟨⟨⟨⟨⟨⟨⟨?_, ?_⟩, ?_⟩, ?_⟩, ?_⟩, ?_⟩, ?_⟩, ?_⟩, ?_⟩ <;>
    exact hne _ (by decide)

/-- `save_user_profile` never touches the `backstory` column of the saved
row: the column read after the save equals the column read before. -/
theorem save_user_profile_backstory (store : Store) (uid : String)
    (pd : ProfileData) :
    backstoryOf (save_user_profile store uid pd) uid = backstoryOf store uid := by
  unfold backstoryOf save_user_profile
  cases h : lookupStore store uid with
  | some r => simp [lookupStore_setStore_same, rowFrom]
  | none => simp [lookupStore_setStore_same, rowFrom]

theorem rowsComplete_save (store : Store) (uid : String) (pd : ProfileData)
    (hs : RowsComplete store) (hpd : missingFields pd = []) :
    RowsComplete (save_user_profile store uid pd) := by
  intro uid' r' h'
  unfold save_user_profile at h'
  by_cases he : uid = uid'
  · subst he
    cases hrow : lookupStore store uid <;>
      · rw [hrow] at h'
        rw [lookupStore_setStore_same] at h'
        cases h'
        exact rowComplete_rowFrom _ _ hpd
  · cases hrow : lookupStore store uid <;>
      · rw [hrow] at h'
        rw [lookupStore_setStore_ne _ _ _ _ he] at h'
        exact hs uid' r' h'

theorem rowComplete_set_backstory (r : Row) (t : Option String) :
    rowComplete { r with backstory := t } = rowComplete r := rfl

theorem rowsComplete_save_backstory (store : Store) (uid : String)
    (t : String) (hs : RowsComplete store) :
    RowsComplete (save_backstory store uid t) := by
  intro uid' r' h'
  unfold save_backstory at h'
  cases hrow : lookupStore store uid with
  | none => rw [hrow] at h'; exact hs uid' r' h'
  | some r =>
    rw [hrow] at h'
    by_cases he : uid = uid'
    · subst he
      rw [lookupStore_setStore_same] at h'
      cases h'
      rw [rowComplete_set_backstory]
      exact hs _ _ hrow
    · rw [lookupStore_setStore_ne _ _ _ _ he] at h'
      exact hs uid' r' h'

/-- The store writes of one onboarding step preserve the row-completeness
invariant: a profile is persisted only on the completion branch, where the
branch condition is exactly `missingFields currentProfile = []`, and the
optional backstory write keeps the other columns. -/
theorem rowsComplete_onboarding_step (store : Store) (st : AgentState)
    (o : Oracles) (h : RowsComplete store) :
    RowsComplete (onboarding_step_node store st o).2 := by
  unfold onboarding_step_node
  dsimp only
  split
  · exact h
  · cases hm : missingFields (applyExtraction (st.user_profile_data.getD [])
      (lastHumanContent st.messages) o.extract) with
    | nil =>
      dsimp only
      split
      · split
        · exact rowsComplete_save_backstory _ _ _
            (rowsComplete_save _ _ _ h hm)
        · exact rowsComplete_save _ _ _ h hm
      · exact rowsComplete_save _ _ _ h hm
    | cons f fs =>
      dsimp only
      exact h

/-- Claim C1: after the `check_user_profile` step runs, `is_onboarding` is true
iff no persisted complete profile exists for the turn's `user_id`.  The
conclusion equates the flag with a function of the store and `user_id`
alone, so the flag is re-derived from the store and independent of any
inbound or cached state.  The code tests the row's existence; under the
invariant `RowsComplete` — established for every store the application
can build by `rowsComplete_nil`, `rowsComplete_save` (every persisted
profile passed the completion check), `rowsComplete_save_backstory` and
`rowsComplete_onboarding_step` — existence coincides with the existence
of a complete profile. -/
theorem claim_C1 (store : Store) (st : AgentState)
    (huid : st.user_id ≠ "") (hinv : RowsComplete store) :
    onboardingFlagAfterCheck store st
      = some (!(completeProfileExists store st.user_id)) := by
  unfold onboardingFlagAfterCheck check_user_profile_node completeProfileExists
  rw [if_neg huid]
  cases hrow : lookupStore store st.user_id with
  | some r =>
    have hget : get_user_profile store st.user_id
        = some (rowToDict st.user_id r) := by
      unfold get_user_profile; rw [hrow]; rfl
    rw [hget]
    simp [applyUpdate, hinv _ _ hrow]
  | none =>
    have hget : get_user_profile store st.user_id = none := by
      unfold get_user_profile; rw [hrow]; rfl
    rw [hget]
    dsimp only
    split
    · rename_i u heq
      split at heq <;>
        (injection heq with heq2; subst heq2; rfl)
    · rename_i e heq
      split at heq <;> exact Except.noConfusion heq

theorem claim_C1_witness :
    onboardingFlagAfterCheck [] { user_id := "u", messages := [.human "Hi"] }
      = some (!(completeProfileExists [] "u")) :=
  claim_C1 [] { user_id := "u", messages := [.human "Hi"] } (by decide)
    rowsComplete_nil

/-- The read the completion branch performs to guard backstory generation,
expressed over the pre-save store: `save_user_profile` keeps the
`backstory` column, so the guard sees the previously stored value. -/
theorem existingBackstory_after_save (store : Store) (uid : String)
    (pd : ProfileData) :
    (lookupPD ((get_user_profile (save_user_profile store uid pd) uid).getD [])
        "backstory").getD ""
      = (backstoryOf store uid).getD "" := by
  unfold save_user_profile get_user_profile backstoryOf
  cases hrow : lookupStore store uid <;>
    simp [lookupStore_setStore_same, lookupPD_rowToDict_backstory, rowFrom]

/-- Claim C2: backstory generation happens at most once per user.  On a
completion-eligible turn for a user who already has a stored (non-empty)
backstory, the onboarding step neither regenerates nor overwrites it: the
stored backstory is unchanged after the turn and the turn emits no new
backstory.  (The profile save that precedes the guard keeps the
`backstory` column, so the guard reads the previously stored value.) -/
theorem claim_C2 (store : Store) (st : AgentState) (o : Oracles) (b : String)
    (hon : st.is_onboarding = some true)
    (hb : backstoryOf store st.user_id = some b) (hbne : b ≠ "")
    (hcomp : missingFields (applyExtraction (st.user_profile_data.getD [])
        (lastHumanContent st.messages) o.extract) = []) :
    backstoryOf (onboarding_step_node store st o).2 st.user_id = some b
    ∧ (onboarding_step_node store st o).1.backstory = some none := by
  have hex : (lookupPD ((get_user_profile (save_user_profile store st.user_id
      (applyExtraction (st.user_profile_data.getD [])
        (lastHumanContent st.messages) o.extract)) st.user_id).getD [])
      "backstory").getD "" = b := by
    rw [existingBackstory_after_save, hb]
    rfl
  unfold onboarding_step_node
  dsimp only
  rw [if_neg (by simp [hon]), hcomp]
  dsimp only
  rw [hex, if_neg hbne]
  refine ⟨?_, rfl⟩
  rw [save_user_profile_backstory]
  exact hb

/-- Claim C4: on a non-completion onboarding turn, the response is the
fixed question for the first still-missing required field — the lookup
text when the field is in `field_prompts`, else the generic
"Please provide your <field>" text (`questionFor` is exactly that
formula) — and nothing is persisted.  The response is a function of the
first missing field alone, so the same profile missing the same first
field yields the same question regardless of prior turn count. -/
theorem claim_C4 (store : Store) (st : AgentState) (o : Oracles)
    (f : String) (fs : List String)
    (hon : st.is_onboarding = some true)
    (hmiss : missingFields (applyExtraction (st.user_profile_data.getD [])
        (lastHumanContent st.messages) o.extract) = f :: fs) :
    (onboarding_step_node store st o).1.final_response_text
      = some (questionFor f)
    ∧ (onboarding_step_node store st o).2 = store := by
  unfold onboarding_step_node
  dsimp only
  rw [if_neg (by simp [hon]), hmiss]
  exact ⟨rfl, rfl⟩

/-- Claim C5 (counterexample): the claim fails on a reachable profile in
which a required field holds an empty string.  With the profile of
`stEmptyState` — every required field present as a dict key except
`years_experience`, but `state` empty — and an unparsable extractor
response for the utterance "hello 7", the presence-based gate list is
exactly `["years_experience"]`, so the numeric fallback fires and writes
`years_experience := "7"`, even though the field the turn re-asks (the
first missing-or-empty field, "the field in question") is `state`, not
`years_experience`.  Both halves of the claim fail: the fallback fired
for a turn about another field, and profile fields were updated. -/
theorem claim_C5_counterexample :
    applyExtraction (stEmptyState.user_profile_data.getD [])
        (lastHumanContent stEmptyState.messages) ExtractOutcome.noJson
      ≠ stEmptyState.user_profile_data.getD []
    ∧ lookupPD (applyExtraction (stEmptyState.user_profile_data.getD [])
        (lastHumanContent stEmptyState.messages) ExtractOutcome.noJson)
        "years_experience" = some "7"
    ∧ (onboarding_step_node [] stEmptyState
        oracleNoJson).1.final_response_text = some (questionFor "state")
    ∧ "state" ≠ "years_experience" :=
  ⟨by decide, rfl, rfl, by decide⟩

/-- Claim C5 (amended): the numeric-token fallback is gated on the
presence-based `missing_fields_for_prompt` list (required fields absent
as dict keys; empty-string values count as present), not on the
emptiness-aware missing list that chooses the question.  When extraction
yields no parseable JSON (and identically when it raises): if the first
key-absent required field is `years_experience`, the fallback sets it to
the first digit run of the utterance (no change when the utterance has
none); if the first key-absent required field is anything else, no
profile fields are updated and the first missing-or-empty field is asked
again.  The two gate notions coincide except on profiles holding an
empty-string required value, where the original claim fails (see the
counterexample). -/
theorem claim_C5 (store : Store) (st : AgentState) (o : Oracles)
    (hon : st.is_onboarding = some true)
    (hno : o.extract = ExtractOutcome.noJson ∨ o.extract = ExtractOutcome.raised) :
    ((missingForPrompt (st.user_profile_data.getD [])).head?
        = some "years_experience" →
      applyExtraction (st.user_profile_data.getD [])
          (lastHumanContent st.messages) o.extract
        = numericFallback (st.user_profile_data.getD [])
            (lastHumanContent st.messages))
    ∧ ((missingForPrompt (st.user_profile_data.getD [])).head?
        ≠ some "years_experience" →
      applyExtraction (st.user_profile_data.getD [])
          (lastHumanContent st.messages) o.extract
        = st.user_profile_data.getD []
      ∧ ∀ f fs, missingFields (st.user_profile_data.getD []) = f :: fs →
          (onboarding_step_node store st o).1.final_response_text
            = some (questionFor f)) := by
  constructor
  · intro hy
    by_cases hmsg : lastHumanContent st.messages = ""
    · unfold applyExtraction
      rw [if_pos hmsg, hmsg]
      rfl
    · unfold applyExtraction
      rw [if_neg hmsg]
      rcases hno with h | h <;> rw [h] <;> dsimp only <;> rw [if_pos hy]
  · intro hcond
    have hmerge : applyExtraction (st.user_profile_data.getD [])
        (lastHumanContent st.messages) o.extract
        = st.user_profile_data.getD [] := by
      by_cases hmsg : lastHumanContent st.messages = ""
      · unfold applyExtraction
        rw [if_pos hmsg]
      · unfold applyExtraction
        rw [if_neg hmsg]
        rcases hno with h | h <;> rw [h] <;> dsimp only <;>
          rw [if_neg hcond]
    refine ⟨hmerge, ?_⟩
    intro f fs hmiss
    unfold onboarding_step_node
    dsimp only
    rw [if_neg (by simp [hon]), hmerge, hmiss]

/-- Claim C6: if the backstory-generation call raises on the completion
turn, the turn still succeeds: the profile is persisted (the resulting
store is exactly the profile upsert), the completion message is still the
turn's final response, and the turn's backstory output is `None`. -/
theorem claim_C6 (store : Store) (st : AgentState) (o : Oracles) (e : String)
    (hon : st.is_onboarding = some true)
    (hcomp : missingFields (applyExtraction (st.user_profile_data.getD [])
        (lastHumanContent st.messages) o.extract) = [])
    (hnb : backstoryOf store st.user_id = none
        ∨ backstoryOf store st.user_id = some "")
    (hfail : o.backstoryGen = .error e) :
    (onboarding_step_node store st o).2
      = save_user_profile store st.user_id
          (applyExtraction (st.user_profile_data.getD [])
            (lastHumanContent st.messages) o.extract)
    ∧ (onboarding_step_node store st o).1.final_response_text
      = some ("Great! "
          ++ (lookupPD (applyExtraction (st.user_profile_data.getD [])
                (lastHumanContent st.messages) o.extract) "name").getD "there"
          ++ ", your artisan profile is set.")
    ∧ (onboarding_step_node store st o).1.backstory = some none := by
  have hex : (lookupPD ((get_user_profile (save_user_profile store st.user_id
      (applyExtraction (st.user_profile_data.getD [])
        (lastHumanContent st.messages) o.extract)) st.user_id).getD [])
      "backstory").getD "" = "" := by
    rw [existingBackstory_after_save]
    rcases hnb with h | h <;> rw [h] <;> rfl
  unfold onboarding_step_node
  dsimp only
  rw [if_neg (by simp [hon]), hcomp]
  dsimp only
  rw [hex, if_pos rfl, hfail]
  exact ⟨rfl, rfl, rfl⟩

theorem claim_C2_witness :
    backstoryOf (onboarding_step_node storeWithBackstory stCompletion
        oracleOk).2 stCompletion.user_id = some "tale"
    ∧ (onboarding_step_node storeWithBackstory stCompletion
        oracleOk).1.backstory = some none :=
  claim_C2 storeWithBackstory stCompletion oracleOk "tale" rfl (by decide)
    (by decide) (by decide)

theorem claim_C4_witness :
    (onboarding_step_node [] stFresh oracleOk).1.final_response_text
      = some (questionFor "name")
    ∧ (onboarding_step_node [] stFresh oracleOk).2 = [] :=
  claim_C4 [] stFresh oracleOk "name"
    ["state", "craft_type", "materials", "years_experience",
     "sales_channels", "price_range", "languages", "brand_style"]
    rfl (by decide)

theorem claim_C5_witness :
    ((missingForPrompt (stMidway.user_profile_data.getD [])).head?
        = some "years_experience" →
      applyExtraction (stMidway.user_profile_data.getD [])
          (lastHumanContent stMidway.messages) oracleNoJson.extract
        = numericFallback (stMidway.user_profile_data.getD [])
            (lastHumanContent stMidway.messages))
    ∧ ((missingForPrompt (stMidway.user_profile_data.getD [])).head?
        ≠ some "years_experience" →
      applyExtraction (stMidway.user_profile_data.getD [])
          (lastHumanContent stMidway.messages) oracleNoJson.extract
        = stMidway.user_profile_data.getD []
      ∧ ∀ f fs,
          missingFields (stMidway.user_profile_data.getD []) = f :: fs →
          (onboarding_step_node [] stMidway
            oracleNoJson).1.final_response_text = some (questionFor f)) :=
  claim_C5 [] stMidway oracleNoJson rfl (Or.inl rfl)

theorem claim_C6_witness :
    (onboarding_step_node [] stCompletion oracleGenFails).2
      = save_user_profile [] stCompletion.user_id
          (applyExtraction (stCompletion.user_profile_data.getD [])
            (lastHumanContent stCompletion.messages) oracleGenFails.extract)
    ∧ (onboarding_step_node [] stCompletion
        oracleGenFails).1.final_response_text
      = some ("Great! "
          ++ (lookupPD (applyExtraction (stCompletion.user_profile_data.getD [])
                (lastHumanContent stCompletion.messages)
                oracleGenFails.extract) "name").getD "there"
          ++ ", your artisan profile is set.")
    ∧ (onboarding_step_node [] stCompletion oracleGenFails).1.backstory
      = some none :=
  claim_C6 [] stCompletion oracleGenFails "model down" rfl (by decide)
    (Or.inl rfl) rfl

/-- Claim C3 (code bug): a brand-new user whose first utterance is "Hi" does NOT
receive the fixed welcome utterance.  `check_user_profile_node` composes
the welcome text and stores it as the turn's response, but the graph then
routes the onboarding-flagged state into `onboarding_step_node`
unconditionally, which overwrites the response with the first onboarding
question; the welcome text survives only inside the message history.  The
claimed flag and empty profile do hold.  The theorem evaluates the full
turn at the failing input (extractor finds nothing in "Hi"). -/
theorem claim_C3 :
    chat_endpoint [] none "Hi" "u1" oracleOk
      = .ok ({ response := "What should I call your brand or what\x27s your name?",
               is_onboarding := true, user_profile := [],
               backstory := none }, [])
    ∧ "What should I call your brand or what\x27s your name?"
        ≠ welcomeMessage :=
  ⟨rfl, by decide⟩

/-- Claim C8 (counterexample): with an empty `user_id` the `/chat` handler does
not reject before invoking the workflow — it has no identity validation at
all.  The workflow runs and its first node produces the in-graph error
marker, which the catch-all surfaces as a 500 internal server error, not
as a pre-invocation client error. -/
theorem claim_C8_counterexample :
    chat_endpoint [] none "Hi" "" oracleOk
      = .error "Internal server error: User ID not found in state"
    ∧ check_user_profile_node [] { messages := [.human "Hi"], user_id := "" }
        = .error "User ID not found in state" :=
  ⟨rfl, rfl⟩

/-- Claim C8 (amended): a fresh turn with an empty `user_id` is not rejected
before workflow invocation; the graph is invoked, `check_user_profile_node`
returns the error marker "User ID not found in state", and the endpoint
surfaces it as a 500 internal server error.  (A request whose `user_id`
field is missing altogether is rejected earlier by request-schema
validation, outside the workflow code.) -/
theorem claim_C8 (store : Store) (message : String) (o : Oracles) :
    chat_endpoint store none message "" o
      = .error "Internal server error: User ID not found in state" := rfl

/-- Claim C9 (counterexample): the round-trip fails for the `backstory` field:
`save_user_profile` writes only the fifteen profile columns, so a mapping
that sets `backstory` does not read back. -/
theorem claim_C9_counterexample :
    lookupPD ((get_user_profile (save_user_profile [] "u"
        [("backstory", "b")]) "u").getD []) "backstory" ≠ some "b" := by
  decide

/-- Claim C9 (amended): the upsert-then-get round-trip preserves every
previously-set field among the fifteen columns `save_user_profile`
actually writes; fields outside that list (such as `backstory`) are not
written by the upsert. -/
theorem claim_C9 (store : Store) (uid : String) (pd : ProfileData)
    (f v : String) (hf : f ∈ profileColumns)
    (hv : lookupPD pd f = some v) :
    lookupPD ((get_user_profile (save_user_profile store uid pd) uid).getD [])
      f = some v := by
  unfold save_user_profile get_user_profile
  cases hrow : lookupStore store uid with
  | some r =>
    dsimp only
    rw [lookupStore_setStore_same]
    simp only [Option.map_some', Option.getD_some]
    rw [lookupPD_rowToDict_col _ _ _ _ hf]
    exact hv
  | none =>
    dsimp only
    rw [lookupStore_setStore_same]
    simp only [Option.map_some', Option.getD_some]
    rw [lookupPD_rowToDict_col _ _ _ _ hf]
    exact hv

theorem claim_C9_witness :
    lookupPD ((get_user_profile (save_user_profile [] "u" completeProfile)
        "u").getD []) "name" = some "Asha" :=
  claim_C9 [] "u" completeProfile "name" "Asha" (by decide) (by decide)

/-- Claim C10: `save_user_profile` never writes the `backstory` column in either
its INSERT or its UPDATE branch: for a user with a stored backstory, the
value read after the upsert equals the value read before. -/
theorem claim_C10 (store : Store) (uid : String) (pd : ProfileData)
    (b : String) (h : backstoryOf store uid = some b) :
    backstoryOf (save_user_profile store uid pd) uid = some b :=
  (save_user_profile_backstory store uid pd).trans h

theorem claim_C10_witness :
    backstoryOf (save_user_profile storeWithBackstory "u" [("name", "New")])
      "u" = some "tale" :=
  claim_C10 storeWithBackstory "u" [("name", "New")] "tale" (by decide)

/-- Claim C7 (counterexample): not every failing external call is absorbed.  A
post-onboarding turn whose intent-classification succeeds but whose
general-query LLM call raises propagates the exception out of the
workflow run instead of producing a degraded textual response. -/
theorem claim_C7_counterexample :
    runTurn storeComplete { messages := [.human "thank you"], user_id := "u" }
        oracleClassifyFails
      = .error "LLM unavailable" := rfl

/-- Claim C7 (amended): failures of the web-search call (and of the welfare
summarization call) are caught inside `welfare_search_node` and converted
into the degraded "Unable to search welfare schemes" text, and the turn
still completes with a response; but failures of the intent-classification
call, the general-query call, or the normalization call propagate out of
the turn (see the counterexample). -/
theorem claim_C7 (store : Store) (st : AgentState) (o : Oracles) (r : Row)
    (es n : String)
    (huid : st.user_id ≠ "")
    (hrow : lookupStore store st.user_id = some r)
    (hmsgs : st.messages ≠ [])
    (hc : o.classify = .ok "welfare_search")
    (hs : o.search = .error es)
    (hn : o.normalize = .ok n) :
    turnSucceeds (runTurn store st o) = true
    ∧ turnToolOutput (runTurn store st o) = some (welfareDegradedText es)
    ∧ (turnFinalResponse (runTurn store st o)).isSome = true := by
  obtain ⟨m, hm⟩ : ∃ m, st.messages.getLast? = some m := by
    cases h2 : st.messages.getLast? with
    | none => exact absurd (List.getLast?_eq_none_iff.mp h2) hmsgs
    | some m => exact ⟨m, rfl⟩
  have hget : get_user_profile store st.user_id
      = some (rowToDict st.user_id r) := by
    unfold get_user_profile; rw [hrow]; rfl
  have hintent : intentOf "welfare_search" = "welfare_search" := rfl
  unfold runTurn check_user_profile_node
  rw [if_neg huid, hget]
  dsimp only
  unfold route_after_checking_profile
  dsimp only [applyUpdate]
  simp only [Option.getD_some, Option.getD_none]
  rw [if_neg (by decide)]
  unfold supervisor_agent_node
  dsimp only
  rw [hm, hc]
  dsimp only
  rw [hintent]
  unfold route_after_supervisor
  dsimp only [applyUpdate]
  simp only [Option.getD_some, Option.getD_none]
  simp only [if_true]
  unfold welfare_search_node
  dsimp only
  rw [hm, hs]
  unfold final_response_node
  dsimp only [Option.getD]
  by_cases hform : occursIn "form" (strLower (welfareDegradedText es)) = true
  · rw [if_pos hform]
    exact ⟨rfl, rfl, rfl⟩
  · rw [if_neg hform, hn]
    exact ⟨rfl, rfl, rfl⟩

theorem claim_C7_witness :
    turnSucceeds (runTurn storeComplete stPost oracleSearchFails) = true
    ∧ turnToolOutput (runTurn storeComplete stPost oracleSearchFails)
        = some (welfareDegradedText "search down")
    ∧ (turnFinalResponse
        (runTurn storeComplete stPost oracleSearchFails)).isSome = true :=
  claim_C7 storeComplete stPost oracleSearchFails
    (rowFrom completeProfile none) "search down" "a short answer"
    (by decide) (by decide) (by decide) rfl rfl rfl
